import Mathlib

/-!
Shallow embedding of the cl3 OpenCL binding layer: the status-code-to-result
translation and the two-phase information-query protocol of
src/src/platform.rs and src/src/command_queue.rs.

Native entry points are modelled as oracles: a function from the index of the
native call within one wrapper invocation (0 for the first call, 1 for the
second) and the arguments of that call to the reply the native runtime
produces (its returned status code and the data it wrote through the
out-pointers).  Wrappers that may issue several native calls also return the
list of calls they issued, in order, so that call-count properties can be
stated.  Handles, buffer bytes and scalar values are abstracted to naturals
standing for their bit patterns; status codes are integers, as cl_int is.
-/

/-- Status code type of the OpenCL C API, cl_int in the source. -/
abbrev cl_int := Int

/-- Success sentinel of the OpenCL C API, from error_codes. -/
def CL_SUCCESS : cl_int := 0

/-- Error code used by the source to initialise a status variable before a
native call that writes the status through a pointer, from error_codes. -/
def CL_INVALID_VALUE : cl_int := -30

/-- Arguments of one native call to an information-query entry point
(clGetPlatformInfo or clGetCommandQueueInfo): the queried object handle, the
parameter-name id, the capacity of the destination buffer passed, and whether
the destination-buffer pointer was null (true exactly for the size-discovery
call). -/
structure InfoCall where
  obj : Nat
  param_id : Nat
  param_value_size : Nat
  null_dest : Bool
deriving DecidableEq, Repr

/-- Reply of the native runtime to one information-query call: the returned
status code, the size it reported through param_value_size_ret, the scalar
value it wrote (for fixed-width fetches) and the element list it wrote (for
variable-length fetches). -/
structure InfoReply where
  status : cl_int
  size_ret : Nat
  value : Nat
  elems : List Nat
deriving DecidableEq, Repr

/-- Behaviour of a native information-query entry point: a reply for each
call, indexed by how many native calls the wrapper has already issued in the
current invocation. -/
structure InfoOracle where
  reply : Nat → InfoCall → InfoReply

/-- Modelled from the spec: the api_info_size helper macro of this repository
(its definition is not under src; src only invokes it).  Step 1 of the
two-phase query protocol: call the native query entry point with a null
destination buffer and zero destination capacity, requesting only the number
of bytes needed; propagate failure if the status is not success. -/
def api_info_size (o : InfoOracle) (s : List InfoCall) (obj param_id : Nat) :
    (Except cl_int Nat) × List InfoCall :=
  let c : InfoCall := ⟨obj, param_id, 0, true⟩
  let r := o.reply s.length c
  (if CL_SUCCESS ≠ r.status then .error r.status else .ok r.size_ret, s ++ [c])

/-- Modelled from the spec: the api_info_value helper macro of this repository
(its definition is not under src; src only invokes it).  For a fixed-size
scalar key the size is a compile-time constant, the size query is skipped,
and a single native call fetches the value into a buffer of the scalar byte
width; a success status yields the fetched value, any other status is
propagated. -/
def api_info_value (width : Nat) (o : InfoOracle) (s : List InfoCall)
    (obj param_id : Nat) : (Except cl_int Nat) × List InfoCall :=
  let c : InfoCall := ⟨obj, param_id, width, false⟩
  let r := o.reply s.length c
  (if CL_SUCCESS ≠ r.status then .error r.status else .ok r.value, s ++ [c])

/-- Modelled from the spec: the api_info_vector helper macro of this
repository (its definition is not under src; src only invokes it).  Steps 2
and 3 of the two-phase query protocol: allocate a buffer of exactly the
discovered number of bytes and call the native query entry point again with
the buffer and its capacity; propagate failure if the status is not success.
A reported size of zero is valid and yields an empty buffer without issuing
the fetch call, matching get_platform_ids in src, which skips the second
native call when the discovered count is zero. -/
def api_info_vector (o : InfoOracle) (s : List InfoCall)
    (obj param_id size : Nat) : (Except cl_int (List Nat)) × List InfoCall :=
  if 0 < size then
    let c : InfoCall := ⟨obj, param_id, size, false⟩
    let r := o.reply s.length c
    (if CL_SUCCESS ≠ r.status then .error r.status else .ok r.elems, s ++ [c])
  else (.ok [], s)

/-- Arguments of one native call to clGetPlatformIDs: the num_entries value,
whether the platforms destination pointer was null, and whether the
num_platforms destination pointer was null. -/
structure PlatformIDsCall where
  num_entries : Nat
  platforms_null : Bool
  num_platforms_null : Bool
deriving DecidableEq, Repr

/-- Reply of the native runtime to one clGetPlatformIDs call: the returned
status code, the platform count written through num_platforms, and the
content of the platforms buffer after the call. -/
structure PlatformIDsReply where
  status : cl_int
  count : Nat
  ids : List Nat
deriving DecidableEq, Repr

/-- Behaviour of the native clGetPlatformIDs entry point, indexed like
InfoOracle by the number of calls already issued. -/
structure PlatformIDsOracle where
  reply : Nat → PlatformIDsCall → PlatformIDsReply

/-- First clGetPlatformIDs call issued by get_platform_ids: num_entries zero,
platforms pointer null, num_platforms pointer non-null. -/
def sizeCallIds : PlatformIDsCall := ⟨0, true, false⟩

/-- Second clGetPlatformIDs call issued by get_platform_ids: num_entries set
to the discovered count, platforms buffer non-null, num_platforms null. -/
def fetchCallIds (count : Nat) : PlatformIDsCall := ⟨count, false, true⟩

/-- Reply of the native runtime to the first call of get_platform_ids. -/
def reply0 (o : PlatformIDsOracle) : PlatformIDsReply := o.reply 0 sizeCallIds

/-- Reply of the native runtime to the second call of get_platform_ids, at
the count discovered by the first. -/
def reply1 (o : PlatformIDsOracle) : PlatformIDsReply :=
  o.reply 1 (fetchCallIds (reply0 o).count)

/-- Embedding of get_platform_ids, src/src/platform.rs lines 41 to 67: query
the platform count with a first clGetPlatformIDs call; on failure return the
status; when the count is positive, fetch that many ids with a second call
and return them on success; when the count is zero, return the empty vector
without a second call. -/
def get_platform_ids (o : PlatformIDsOracle) : Except cl_int (List Nat) :=
  let r0 := reply0 o
  if CL_SUCCESS ≠ r0.status then .error r0.status
  else
    if 0 < r0.count then
      let r1 := reply1 o
      if CL_SUCCESS ≠ r1.status then .error r1.status
      else .ok r1.ids
    else .ok []

/-- Byte width of cl_uint, as mem::size_of gives it in the source. -/
def size_of_cl_uint : Nat := 4

/-- Byte width of cl_ulong. -/
def size_of_cl_ulong : Nat := 8

/-- Byte width of intptr_t on the 64-bit targets the crate builds for. -/
def size_of_intptr_t : Nat := 8

/-- Modelled from the spec: the InfoType tagged union of this repository (its
definition is not under src; src constructs its variants Str, Uint, Ulong,
Ptr, VecNameVersion and VecUlong).  Variable-length payload elements are
abstracted to naturals: bytes of the string for Str, bit patterns of the
cl_name_version records for VecNameVersion, cl_ulong values for VecUlong. -/
inductive InfoType where
  | Str : List Nat → InfoType
  | Uint : Nat → InfoType
  | Ulong : Nat → InfoType
  | Ptr : Nat → InfoType
  | VecNameVersion : List Nat → InfoType
  | VecUlong : List Nat → InfoType
deriving DecidableEq, Repr

/-- Embedding of the PlatformInfo enum, src/src/platform.rs lines 71 to 83. -/
inductive PlatformInfo where
  | CL_PLATFORM_PROFILE
  | CL_PLATFORM_VERSION
  | CL_PLATFORM_NAME
  | CL_PLATFORM_VENDOR
  | CL_PLATFORM_EXTENSIONS
  | CL_PLATFORM_HOST_TIMER_RESOLUTION
  | CL_PLATFORM_NUMERIC_VERSION
  | CL_PLATFORM_EXTENSIONS_WITH_VERSION
deriving DecidableEq, Repr

/-- Discriminant values of the PlatformInfo enum, as declared in the source. -/
def PlatformInfo.id : PlatformInfo → Nat
  | .CL_PLATFORM_PROFILE => 0x0900
  | .CL_PLATFORM_VERSION => 0x0901
  | .CL_PLATFORM_NAME => 0x0902
  | .CL_PLATFORM_VENDOR => 0x0903
  | .CL_PLATFORM_EXTENSIONS => 0x0904
  | .CL_PLATFORM_HOST_TIMER_RESOLUTION => 0x0905
  | .CL_PLATFORM_NUMERIC_VERSION => 0x0906
  | .CL_PLATFORM_EXTENSIONS_WITH_VERSION => 0x0907

/-- Embedding of get_platform_info, src/src/platform.rs lines 114 to 150:
string-shaped keys run the size query then a byte fetch and wrap the bytes in
Str; CL_PLATFORM_NUMERIC_VERSION fetches a cl_uint in one call and wraps it
in Uint; CL_PLATFORM_HOST_TIMER_RESOLUTION fetches a cl_ulong in one call and
wraps it in Ulong; CL_PLATFORM_EXTENSIONS_WITH_VERSION runs the size query
then a cl_name_version fetch and wraps the records in VecNameVersion.  The
second component is the list of native calls issued. -/
def get_platform_info (o : InfoOracle) (platform : Nat)
    (param_name : PlatformInfo) : (Except cl_int InfoType) × List InfoCall :=
  let param_id := param_name.id
  match param_name with
  | .CL_PLATFORM_PROFILE | .CL_PLATFORM_VERSION | .CL_PLATFORM_NAME
  | .CL_PLATFORM_VENDOR | .CL_PLATFORM_EXTENSIONS =>
    match api_info_size o [] platform param_id with
    | (.error e, s) => (.error e, s)
    | (.ok size, s) =>
      match api_info_vector o s platform param_id size with
      | (.error e, t) => (.error e, t)
      | (.ok bytes, t) => (.ok (InfoType.Str bytes), t)
  | .CL_PLATFORM_NUMERIC_VERSION =>
    match api_info_value size_of_cl_uint o [] platform param_id with
    | (.error e, s) => (.error e, s)
    | (.ok v, s) => (.ok (InfoType.Uint v), s)
  | .CL_PLATFORM_HOST_TIMER_RESOLUTION =>
    match api_info_value size_of_cl_ulong o [] platform param_id with
    | (.error e, s) => (.error e, s)
    | (.ok v, s) => (.ok (InfoType.Ulong v), s)
  | .CL_PLATFORM_EXTENSIONS_WITH_VERSION =>
    match api_info_size o [] platform param_id with
    | (.error e, s) => (.error e, s)
    | (.ok size, s) =>
      match api_info_vector o s platform param_id size with
      | (.error e, t) => (.error e, t)
      | (.ok recs, t) => (.ok (InfoType.VecNameVersion recs), t)

/-- Embedding of the CommandQueueInfo enum, src/src/command_queue.rs lines
163 to 174. -/
inductive CommandQueueInfo where
  | CL_QUEUE_CONTEXT
  | CL_QUEUE_DEVICE
  | CL_QUEUE_REFERENCE_COUNT
  | CL_QUEUE_PROPERTIES
  | CL_QUEUE_SIZE
  | CL_QUEUE_DEVICE_DEFAULT
  | CL_QUEUE_PROPERTIES_ARRAY
deriving DecidableEq, Repr

/-- Discriminant values of the CommandQueueInfo enum, as declared in the
source. -/
def CommandQueueInfo.id : CommandQueueInfo → Nat
  | .CL_QUEUE_CONTEXT => 0x1090
  | .CL_QUEUE_DEVICE => 0x1091
  | .CL_QUEUE_REFERENCE_COUNT => 0x1092
  | .CL_QUEUE_PROPERTIES => 0x1093
  | .CL_QUEUE_SIZE => 0x1094
  | .CL_QUEUE_DEVICE_DEFAULT => 0x1095
  | .CL_QUEUE_PROPERTIES_ARRAY => 0x1098

/-- Embedding of get_command_queue_info, src/src/command_queue.rs lines 185
to 223: CL_QUEUE_REFERENCE_COUNT and CL_QUEUE_SIZE fetch a cl_uint in one
call and wrap it in Uint; CL_QUEUE_PROPERTIES fetches a cl_ulong in one call
and wraps it in Ulong; CL_QUEUE_CONTEXT, CL_QUEUE_DEVICE and
CL_QUEUE_DEVICE_DEFAULT fetch an intptr_t in one call and wrap it in Ptr;
CL_QUEUE_PROPERTIES_ARRAY runs the size query then a cl_ulong fetch and
wraps the values in VecUlong. -/
def get_command_queue_info (o : InfoOracle) (command_queue : Nat)
    (param_name : CommandQueueInfo) : (Except cl_int InfoType) × List InfoCall :=
  let param_id := param_name.id
  match param_name with
  | .CL_QUEUE_REFERENCE_COUNT | .CL_QUEUE_SIZE =>
    match api_info_value size_of_cl_uint o [] command_queue param_id with
    | (.error e, s) => (.error e, s)
    | (.ok v, s) => (.ok (InfoType.Uint v), s)
  | .CL_QUEUE_PROPERTIES =>
    match api_info_value size_of_cl_ulong o [] command_queue param_id with
    | (.error e, s) => (.error e, s)
    | (.ok v, s) => (.ok (InfoType.Ulong v), s)
  | .CL_QUEUE_CONTEXT | .CL_QUEUE_DEVICE | .CL_QUEUE_DEVICE_DEFAULT =>
    match api_info_value size_of_intptr_t o [] command_queue param_id with
    | (.error e, s) => (.error e, s)
    | (.ok v, s) => (.ok (InfoType.Ptr v), s)
  | .CL_QUEUE_PROPERTIES_ARRAY =>
    match api_info_size o [] command_queue param_id with
    | (.error e, s) => (.error e, s)
    | (.ok size, s) =>
      match api_info_vector o s command_queue param_id size with
      | (.error e, t) => (.error e, t)
      | (.ok vs, t) => (.ok (InfoType.VecUlong vs), t)

/-- Embedding of get_command_queue_data, src/src/command_queue.rs lines 151
to 159: run the size query, propagating failure, then run the byte fetch at
the discovered size and return the raw bytes. -/
def get_command_queue_data (o : InfoOracle) (command_queue param_name : Nat) :
    (Except cl_int (List Nat)) × List InfoCall :=
  match api_info_size o [] command_queue param_name with
  | (.error e, s) => (.error e, s)
  | (.ok size, s) => api_info_vector o s command_queue param_name size

/-- Embedding of create_command_queue, src/src/command_queue.rs lines 74 to
87.  The native clCreateCommandQueue returns the new queue handle and writes
the status through the errcode_ret pointer; the model gives the native entry
point as a function from the three arguments to that (queue, status) pair.
The source initialises the status variable to CL_INVALID_VALUE before the
call, but the pointer passed is non-null, so the native entry point always
overwrites it per the OpenCL contract; the model therefore reads the status
from the native reply. -/
def create_command_queue (clCreateCommandQueue : Nat → Nat → Nat → Nat × cl_int)
    (context device properties : Nat) : Except cl_int Nat :=
  let r := clCreateCommandQueue context device properties
  let queue := r.1
  let status := r.2
  if CL_SUCCESS ≠ status then .error status else .ok queue

/-- Embedding of retain_command_queue, src/src/command_queue.rs lines 124 to
131: forward to clRetainCommandQueue and translate the status. -/
def retain_command_queue (clRetainCommandQueue : Nat → cl_int)
    (command_queue : Nat) : Except cl_int Unit :=
  let status := clRetainCommandQueue command_queue
  if CL_SUCCESS ≠ status then .error status else .ok ()

/-- Embedding of release_command_queue, src/src/command_queue.rs lines 140 to
147: forward to clReleaseCommandQueue and translate the status. -/
def release_command_queue (clReleaseCommandQueue : Nat → cl_int)
    (command_queue : Nat) : Except cl_int Unit :=
  let status := clReleaseCommandQueue command_queue
  if CL_SUCCESS ≠ status then .error status else .ok ()

/-- Embedding of flush, src/src/command_queue.rs lines 232 to 239: forward to
clFlush and translate the status. -/
def flush (clFlush : Nat → cl_int) (command_queue : Nat) : Except cl_int Unit :=
  let status := clFlush command_queue
  if CL_SUCCESS ≠ status then .error status else .ok ()

/-- Embedding of finish, src/src/command_queue.rs lines 248 to 255: forward
to clFinish and translate the status. -/
def finish (clFinish : Nat → cl_int) (command_queue : Nat) : Except cl_int Unit :=
  let status := clFinish command_queue
  if CL_SUCCESS ≠ status then .error status else .ok ()

/-- Reply of a native enqueue entry point that writes an event out-parameter:
the returned status code and the event handle written. -/
structure EnqueueReply where
  status : cl_int
  event : Nat
deriving DecidableEq, Repr

/-- Embedding of enqueue_read_buffer, src/src/command_queue.rs lines 260 to
289: forward all arguments to clEnqueueReadBuffer, which writes an event and
returns a status; a success status yields the event, any other status is
returned as the error. -/
def enqueue_read_buffer
    (clEnqueueReadBuffer : Nat → Nat → Nat → Nat → Nat → Nat → Nat → List Nat → EnqueueReply)
    (command_queue buffer blocking_read offset size ptr
      num_events_in_wait_list : Nat) (event_wait_list : List Nat) :
    Except cl_int Nat :=
  let r := clEnqueueReadBuffer command_queue buffer blocking_read offset size
    ptr num_events_in_wait_list event_wait_list
  if CL_SUCCESS ≠ r.status then .error r.status else .ok r.event

/-- Reply of the native clEnqueueMapBuffer and clEnqueueMapImage entry
points: the mapped pointer they return, the event they write, and the status
they write through the errcode_ret pointer. -/
structure MapReply where
  ptr : Nat
  event : Nat
  status : cl_int
deriving DecidableEq, Repr

/-- Embedding of enqueue_map_buffer, src/src/command_queue.rs lines 714 to
746.  The native call returns the mapped pointer, which the source assigns
through the buffer_ptr mutable reference before inspecting the status; the
model takes the initial value of that reference and returns its final value
as the second component, alongside the translated result, whose ok payload is
the event, not the pointer.  The status variable is initialised to
CL_INVALID_VALUE in the source, but the errcode_ret pointer passed is
non-null, so the native entry point always overwrites it. -/
def enqueue_map_buffer
    (clEnqueueMapBuffer : Nat → Nat → Nat → Nat → Nat → Nat → Nat → List Nat → MapReply)
    (command_queue buffer blocking_map map_flags offset size : Nat)
    (buffer_ptr : Nat) (num_events_in_wait_list : Nat)
    (event_wait_list : List Nat) : (Except cl_int Nat) × Nat :=
  let r := clEnqueueMapBuffer command_queue buffer blocking_map map_flags
    offset size num_events_in_wait_list event_wait_list
  let buffer_ptr := r.ptr
  (if CL_SUCCESS ≠ r.status then .error r.status else .ok r.event, buffer_ptr)

/-- Embedding of enqueue_map_image, src/src/command_queue.rs lines 751 to
787.  Same shape as enqueue_map_buffer: the mapped pointer is assigned
through the image_ptr mutable reference before the status is inspected, and
the ok payload of the returned result is the event (the declared Rust return
type is a raw pointer, but cl_event is the same underlying pointer type and
the value returned is the event). -/
def enqueue_map_image
    (clEnqueueMapImage : Nat → Nat → Nat → Nat → Nat → Nat → Nat → Nat → Nat → List Nat → MapReply)
    (command_queue image blocking_map map_flags origin region image_row_pitch
      image_slice_pitch : Nat) (image_ptr : Nat)
    (num_events_in_wait_list : Nat) (event_wait_list : List Nat) :
    (Except cl_int Nat) × Nat :=
  let r := clEnqueueMapImage command_queue image blocking_map map_flags origin
    region image_row_pitch image_slice_pitch num_events_in_wait_list
    event_wait_list
  let image_ptr := r.ptr
  (if CL_SUCCESS ≠ r.status then .error r.status else .ok r.event, image_ptr)

/-- Result shapes of the tagged InfoType union, one per variant. -/
inductive InfoShape where
  | SStr
  | SUint
  | SUlong
  | SPtr
  | SVecNameVersion
  | SVecUlong
deriving DecidableEq, Repr

/-- Shape of an InfoType value: the variant it was built with. -/
def InfoType.shape : InfoType → InfoShape
  | .Str _ => .SStr
  | .Uint _ => .SUint
  | .Ulong _ => .SUlong
  | .Ptr _ => .SPtr
  | .VecNameVersion _ => .SVecNameVersion
  | .VecUlong _ => .SVecUlong

/-- Statement of the specification: the key-to-shape mapping claimed for
platform keys, written from the words of the spec and of claim C3 for
comparison with the embedded code. -/
def spec_platform_shape : PlatformInfo → InfoShape
  | .CL_PLATFORM_PROFILE => .SStr
  | .CL_PLATFORM_VERSION => .SStr
  | .CL_PLATFORM_NAME => .SStr
  | .CL_PLATFORM_VENDOR => .SStr
  | .CL_PLATFORM_EXTENSIONS => .SStr
  | .CL_PLATFORM_HOST_TIMER_RESOLUTION => .SUlong
  | .CL_PLATFORM_NUMERIC_VERSION => .SUint
  | .CL_PLATFORM_EXTENSIONS_WITH_VERSION => .SVecNameVersion

/-- Statement of the specification: the key-to-shape mapping claimed for
command-queue keys, written from the words of the spec and of claim C3 for
comparison with the embedded code. -/
def spec_queue_shape : CommandQueueInfo → InfoShape
  | .CL_QUEUE_CONTEXT => .SPtr
  | .CL_QUEUE_DEVICE => .SPtr
  | .CL_QUEUE_REFERENCE_COUNT => .SUint
  | .CL_QUEUE_PROPERTIES => .SUlong
  | .CL_QUEUE_SIZE => .SUint
  | .CL_QUEUE_DEVICE_DEFAULT => .SPtr
  | .CL_QUEUE_PROPERTIES_ARRAY => .SVecUlong

/-- Classification of platform keys by the match arms of get_platform_info:
true exactly for the keys handled by the size-query-then-fetch arms. -/
def PlatformInfo.is_variable : PlatformInfo → Bool
  | .CL_PLATFORM_PROFILE | .CL_PLATFORM_VERSION | .CL_PLATFORM_NAME
  | .CL_PLATFORM_VENDOR | .CL_PLATFORM_EXTENSIONS
  | .CL_PLATFORM_EXTENSIONS_WITH_VERSION => true
  | .CL_PLATFORM_NUMERIC_VERSION | .CL_PLATFORM_HOST_TIMER_RESOLUTION => false

/-- Classification of command-queue keys by the match arms of
get_command_queue_info: true exactly for CL_QUEUE_PROPERTIES_ARRAY, the one
key handled by the size-query-then-fetch arm. -/
def CommandQueueInfo.is_variable : CommandQueueInfo → Bool
  | .CL_QUEUE_PROPERTIES_ARRAY => true
  | _ => false

/-- Status codes the native runtime produced along a trace of
information-query calls, starting at the given call index. -/
def statusesOf (o : InfoOracle) : Nat → List InfoCall → List cl_int
  | _, [] => []
  | i, c :: cs => (o.reply i c).status :: statusesOf o (i + 1) cs

/-- Oracle on which clGetPlatformIDs succeeds twice, reporting two platforms
and writing ids 7 and 9. -/
def idsOracle : PlatformIDsOracle :=
  ⟨fun i _ => if i = 0 then ⟨0, 2, []⟩ else ⟨0, 2, [7, 9]⟩⟩

/-- Claim C1: for every wrapper function calling a native entry point, a
returned status equal to CL_SUCCESS yields an ok-result carrying the
out-parameter the native call produced (unit for finish, the queue handle for
create_command_queue, the platform id vector for get_platform_ids), and any
other status yields an error-result carrying exactly that status code,
unmodified. -/
theorem c1_status_translation :
    (∀ f q, f q = CL_SUCCESS → finish f q = .ok ()) ∧
    (∀ f q, f q ≠ CL_SUCCESS → finish f q = .error (f q)) ∧
    (∀ g c d p, (g c d p).2 = CL_SUCCESS →
      create_command_queue g c d p = .ok (g c d p).1) ∧
    (∀ g c d p, (g c d p).2 ≠ CL_SUCCESS →
      create_command_queue g c d p = .error (g c d p).2) ∧
    (∀ o : PlatformIDsOracle,
      ((reply0 o).status ≠ CL_SUCCESS →
        get_platform_ids o = .error (reply0 o).status) ∧
      ((reply0 o).status = CL_SUCCESS → 0 < (reply0 o).count →
        ((reply1 o).status = CL_SUCCESS →
          get_platform_ids o = .ok (reply1 o).ids) ∧
        ((reply1 o).status ≠ CL_SUCCESS →
          get_platform_ids o = .error (reply1 o).status))) := by
  refine ⟨?_, ?_, ?_, ?_, ?_⟩
  · intro f q h
    simp [finish, h]
  · intro f q h
    simp [finish, (Ne.symm h)]
  · intro g c d p h
    simp [create_command_queue, h]
  · intro g c d p h
    simp [create_command_queue, (Ne.symm h)]
  · intro o
    constructor
    · intro h
      simp [get_platform_ids, (Ne.symm h)]
    · intro h0 hc
      constructor
      · intro h1
        simp [get_platform_ids, h0, hc, h1]
      · intro h1
        simp [get_platform_ids, h0, hc, (Ne.symm h1)]

/-- Witness for C1 at concrete inputs: a failing finish returns the failing
code, and get_platform_ids on a twice-succeeding oracle returns the ids the
native call wrote. -/
theorem c1_status_translation_witness :
    finish (fun _ => -5) 0 = .error (-5) ∧
    get_platform_ids idsOracle = .ok [7, 9] :=
  ⟨c1_status_translation.2.1 (fun _ => -5) 0 (by decide),
   ((c1_status_translation.2.2.2.2 idsOracle).2 (by decide) (by decide)).1
     (by decide)⟩

/-- Claim C7: the status translation is applied uniformly to the wrappers
whose native call produces no interesting out-parameter
(retain_command_queue, release_command_queue, flush, finish): a success
status yields an ok-result with unit payload, any other status yields an
error-result carrying the code. -/
theorem c7_unit_wrappers :
    (∀ f q, f q = CL_SUCCESS → retain_command_queue f q = .ok ()) ∧
    (∀ f q, f q ≠ CL_SUCCESS → retain_command_queue f q = .error (f q)) ∧
    (∀ f q, f q = CL_SUCCESS → release_command_queue f q = .ok ()) ∧
    (∀ f q, f q ≠ CL_SUCCESS → release_command_queue f q = .error (f q)) ∧
    (∀ f q, f q = CL_SUCCESS → flush f q = .ok ()) ∧
    (∀ f q, f q ≠ CL_SUCCESS → flush f q = .error (f q)) ∧
    (∀ f q, f q = CL_SUCCESS → finish f q = .ok ()) ∧
    (∀ f q, f q ≠ CL_SUCCESS → finish f q = .error (f q)) := by
  refine ⟨?_, ?_, ?_, ?_, ?_, ?_, ?_, ?_⟩ <;> intro f q h
  · simp [retain_command_queue, h]
  · simp [retain_command_queue, (Ne.symm h)]
  · simp [release_command_queue, h]
  · simp [release_command_queue, (Ne.symm h)]
  · simp [flush, h]
  · simp [flush, (Ne.symm h)]
  · simp [finish, h]
  · simp [finish, (Ne.symm h)]

/-- Witness for C7 at concrete inputs: each of the four unit wrappers on a
succeeding and on a failing native status. -/
theorem c7_unit_wrappers_witness :
    retain_command_queue (fun _ => 0) 1 = .ok () ∧
    retain_command_queue (fun _ => -6) 1 = .error (-6) ∧
    release_command_queue (fun _ => 0) 1 = .ok () ∧
    release_command_queue (fun _ => -36) 1 = .error (-36) ∧
    flush (fun _ => 0) 1 = .ok () ∧
    flush (fun _ => -36) 1 = .error (-36) ∧
    finish (fun _ => 0) 1 = .ok () ∧
    finish (fun _ => -36) 1 = .error (-36) :=
  ⟨c7_unit_wrappers.1 (fun _ => 0) 1 (by decide),
   c7_unit_wrappers.2.1 (fun _ => -6) 1 (by decide),
   c7_unit_wrappers.2.2.1 (fun _ => 0) 1 (by decide),
   c7_unit_wrappers.2.2.2.1 (fun _ => -36) 1 (by decide),
   c7_unit_wrappers.2.2.2.2.1 (fun _ => 0) 1 (by decide),
   c7_unit_wrappers.2.2.2.2.2.1 (fun _ => -36) 1 (by decide),
   c7_unit_wrappers.2.2.2.2.2.2.1 (fun _ => 0) 1 (by decide),
   c7_unit_wrappers.2.2.2.2.2.2.2 (fun _ => -36) 1 (by decide)⟩

/-- Claim C10: an error-result never carries the success sentinel: whenever
release_command_queue or get_platform_ids returns an error-result with code
c, then c is not CL_SUCCESS, because the error branch is taken exactly when
the status differs from CL_SUCCESS. -/
theorem c10_error_not_success :
    (∀ f q c, release_command_queue f q = .error c → c ≠ CL_SUCCESS) ∧
    (∀ (o : PlatformIDsOracle) c,
      get_platform_ids o = .error c → c ≠ CL_SUCCESS) := by
  constructor
  · intro f q c h
    unfold release_command_queue at h
    dsimp only at h
    split at h
    · rename_i hne
      cases h
      exact fun hc => hne hc.symm
    · cases h
  · intro o c h
    unfold get_platform_ids at h
    dsimp only at h
    split at h
    · rename_i hne
      cases h
      exact fun hc => hne hc.symm
    · split at h
      · split at h
        · rename_i hne
          cases h
          exact fun hc => hne hc.symm
        · cases h
      · cases h

/-- Witness for C10 at a concrete input: a failing release returns an error
code distinct from CL_SUCCESS. -/
theorem c10_error_not_success_witness :
    release_command_queue (fun _ => -5) 3 = .error (-5) ∧
    (-5 : cl_int) ≠ CL_SUCCESS :=
  ⟨rfl, c10_error_not_success.1 (fun _ => -5) 3 (-5) rfl⟩

/-- Size-discovery call of the two-phase query protocol: zero capacity, null
destination buffer. -/
def sizeCall (obj id : Nat) : InfoCall := ⟨obj, id, 0, true⟩

/-- Value-fetch call of the two-phase query protocol, at the discovered
size. -/
def fetchCall (obj id n : Nat) : InfoCall := ⟨obj, id, n, false⟩

/-- Single fetch call of a fixed-size scalar query, at the compile-time
width. -/
def valueCall (obj id width : Nat) : InfoCall := ⟨obj, id, width, false⟩

/-- Reply of the native runtime to the size-discovery call. -/
def sizeReply (o : InfoOracle) (obj id : Nat) : InfoReply :=
  o.reply 0 (sizeCall obj id)

/-- Reply of the native runtime to the value-fetch call, issued second, at
the size the size-discovery call reported. -/
def fetchReply (o : InfoOracle) (obj id : Nat) : InfoReply :=
  o.reply 1 (fetchCall obj id (sizeReply o obj id).size_ret)

/-- Reply of the native runtime to the single scalar fetch call. -/
def valueReply (o : InfoOracle) (obj id width : Nat) : InfoReply :=
  o.reply 0 (valueCall obj id width)

/-- Closed form of the size-query-then-fetch composition used by the
variable-length arms of the query wrappers. -/
def twoPhaseResult (o : InfoOracle) (obj id : Nat) {α : Type}
    (wrap : List Nat → α) : (Except cl_int α) × List InfoCall :=
  if CL_SUCCESS ≠ (sizeReply o obj id).status then
    (.error (sizeReply o obj id).status, [sizeCall obj id])
  else if 0 < (sizeReply o obj id).size_ret then
    if CL_SUCCESS ≠ (fetchReply o obj id).status then
      (.error (fetchReply o obj id).status,
        [sizeCall obj id, fetchCall obj id (sizeReply o obj id).size_ret])
    else
      (.ok (wrap (fetchReply o obj id).elems),
        [sizeCall obj id, fetchCall obj id (sizeReply o obj id).size_ret])
  else (.ok (wrap []), [sizeCall obj id])

/-- Closed form of the single-call composition used by the fixed-size scalar
arms of the query wrappers. -/
def onePhaseResult (o : InfoOracle) (obj id width : Nat) {α : Type}
    (wrap : Nat → α) : (Except cl_int α) × List InfoCall :=
  if CL_SUCCESS ≠ (valueReply o obj id width).status then
    (.error (valueReply o obj id width).status, [valueCall obj id width])
  else (.ok (wrap (valueReply o obj id width).value), [valueCall obj id width])

lemma two_phase_eq (o : InfoOracle) (obj id : Nat) {α : Type}
    (wrap : List Nat → α) :
    (match api_info_size o [] obj id with
     | (.error e, s) => ((Except.error e : Except cl_int α), s)
     | (.ok size, s) =>
       match api_info_vector o s obj id size with
       | (.error e, t) => (Except.error e, t)
       | (.ok xs, t) => (Except.ok (wrap xs), t)) =
    twoPhaseResult o obj id wrap := by
  unfold twoPhaseResult api_info_size api_info_vector sizeReply fetchReply
    sizeCall fetchCall
  dsimp only
  by_cases h0 : CL_SUCCESS = (o.reply 0 ⟨obj, id, 0, true⟩).status
  · simp only [List.length_nil, List.nil_append, if_neg (not_not_intro h0)]
    by_cases hs : 0 < (o.reply 0 ⟨obj, id, 0, true⟩).size_ret
    · simp only [if_pos hs, List.length_cons, List.length_nil]
      by_cases h1 : CL_SUCCESS =
          (o.reply 1 ⟨obj, id, (o.reply 0 ⟨obj, id, 0, true⟩).size_ret,
            false⟩).status
      · simp [sizeReply, sizeCall, if_neg (not_not_intro h1), h1]
      · simp [sizeReply, sizeCall, if_pos h1, h1]
    · simp [sizeReply, sizeCall, if_neg hs]
  · simp [sizeReply, sizeCall, if_pos h0]

lemma one_phase_eq (o : InfoOracle) (obj id width : Nat) {α : Type}
    (wrap : Nat → α) :
    (match api_info_value width o [] obj id with
     | (.error e, s) => ((Except.error e : Except cl_int α), s)
     | (.ok v, s) => (Except.ok (wrap v), s)) =
    onePhaseResult o obj id width wrap := by
  unfold onePhaseResult api_info_value valueReply valueCall
  dsimp only
  by_cases h0 : CL_SUCCESS = (o.reply 0 ⟨obj, id, width, false⟩).status
  · simp [if_neg (not_not_intro h0)]
  · simp [if_pos h0]

/-- Constructor applied by the variable-length arms of get_platform_info:
VecNameVersion for CL_PLATFORM_EXTENSIONS_WITH_VERSION, Str for the five
string keys. -/
def platform_wrap : PlatformInfo → List Nat → InfoType
  | .CL_PLATFORM_EXTENSIONS_WITH_VERSION => InfoType.VecNameVersion
  | _ => InfoType.Str

/-- Scalar byte width used by the fixed-size arms of get_platform_info. -/
def platform_width : PlatformInfo → Nat
  | .CL_PLATFORM_NUMERIC_VERSION => size_of_cl_uint
  | _ => size_of_cl_ulong

/-- Constructor applied by the fixed-size arms of get_platform_info. -/
def platform_scalar_wrap : PlatformInfo → Nat → InfoType
  | .CL_PLATFORM_NUMERIC_VERSION => InfoType.Uint
  | _ => InfoType.Ulong

/-- Scalar byte width used by the fixed-size arms of
get_command_queue_info. -/
def queue_width : CommandQueueInfo → Nat
  | .CL_QUEUE_REFERENCE_COUNT | .CL_QUEUE_SIZE => size_of_cl_uint
  | .CL_QUEUE_PROPERTIES => size_of_cl_ulong
  | _ => size_of_intptr_t

/-- Constructor applied by the fixed-size arms of get_command_queue_info. -/
def queue_scalar_wrap : CommandQueueInfo → Nat → InfoType
  | .CL_QUEUE_REFERENCE_COUNT | .CL_QUEUE_SIZE => InfoType.Uint
  | .CL_QUEUE_PROPERTIES => InfoType.Ulong
  | _ => InfoType.Ptr

lemma get_platform_info_variable (o : InfoOracle) (p : Nat) (k : PlatformInfo)
    (hk : k.is_variable = true) :
    get_platform_info o p k = twoPhaseResult o p k.id (platform_wrap k) := by
  cases k <;>
    first
      | exact two_phase_eq o p _ _
      | exact absurd hk (by simp [PlatformInfo.is_variable])

lemma get_platform_info_scalar (o : InfoOracle) (p : Nat) (k : PlatformInfo)
    (hk : k.is_variable = false) :
    get_platform_info o p k =
      onePhaseResult o p k.id (platform_width k) (platform_scalar_wrap k) := by
  cases k <;>
    first
      | exact one_phase_eq o p _ _ _
      | exact absurd hk (by simp [PlatformInfo.is_variable])

lemma get_command_queue_info_variable (o : InfoOracle) (q : Nat)
    (k : CommandQueueInfo) (hk : k.is_variable = true) :
    get_command_queue_info o q k =
      twoPhaseResult o q k.id InfoType.VecUlong := by
  cases k <;>
    first
      | exact two_phase_eq o q _ _
      | exact absurd hk (by simp [CommandQueueInfo.is_variable])

lemma get_command_queue_info_scalar (o : InfoOracle) (q : Nat)
    (k : CommandQueueInfo) (hk : k.is_variable = false) :
    get_command_queue_info o q k =
      onePhaseResult o q k.id (queue_width k) (queue_scalar_wrap k) := by
  cases k <;>
    first
      | exact one_phase_eq o q _ _ _
      | exact absurd hk (by simp [CommandQueueInfo.is_variable])

lemma get_command_queue_data_eq (o : InfoOracle) (q n : Nat) :
    get_command_queue_data o q n = twoPhaseResult o q n (fun xs => xs) := by
  unfold get_command_queue_data twoPhaseResult api_info_size api_info_vector
    sizeReply fetchReply sizeCall fetchCall
  dsimp only
  by_cases h0 : CL_SUCCESS = (o.reply 0 ⟨q, n, 0, true⟩).status
  · simp only [List.length_nil, List.nil_append, if_neg (not_not_intro h0)]
    by_cases hs : 0 < (o.reply 0 ⟨q, n, 0, true⟩).size_ret
    · simp only [if_pos hs, List.length_cons, List.length_nil]
      by_cases h1 : CL_SUCCESS =
          (o.reply 1 ⟨q, n, (o.reply 0 ⟨q, n, 0, true⟩).size_ret,
            false⟩).status
      · simp [sizeReply, sizeCall, if_neg (not_not_intro h1), h1]
      · simp [sizeReply, sizeCall, if_pos h1, h1]
    · simp [sizeReply, sizeCall, if_neg hs]
  · simp [sizeReply, sizeCall, if_pos h0]

lemma onePhase_trace {α : Type} (o : InfoOracle) (obj id w : Nat)
    (wrap : Nat → α) :
    (onePhaseResult o obj id w wrap).2 = [valueCall obj id w] := by
  unfold onePhaseResult
  split <;> rfl

lemma onePhase_ok {α : Type} (o : InfoOracle) (obj id w : Nat)
    (wrap : Nat → α) (v : α) (tr : List InfoCall)
    (h : onePhaseResult o obj id w wrap = (.ok v, tr)) :
    v = wrap (valueReply o obj id w).value ∧
      CL_SUCCESS = (valueReply o obj id w).status := by
  unfold onePhaseResult at h
  split at h
  · simp at h
  · rename_i hst
    simp at h
    exact ⟨h.1.symm, not_not.mp hst⟩

lemma onePhase_error {α : Type} (o : InfoOracle) (obj id w : Nat)
    (wrap : Nat → α) (e : cl_int) (tr : List InfoCall)
    (h : onePhaseResult o obj id w wrap = (.error e, tr)) :
    e = (valueReply o obj id w).status ∧ e ≠ CL_SUCCESS ∧
      tr = [valueCall obj id w] := by
  unfold onePhaseResult at h
  split at h
  · rename_i hst
    simp at h
    exact ⟨h.1.symm, h.1 ▸ fun hc => hst hc.symm, h.2.symm⟩
  · simp at h

lemma twoPhase_ok {α : Type} (o : InfoOracle) (obj id : Nat)
    (wrap : List Nat → α) (v : α) (tr : List InfoCall)
    (h : twoPhaseResult o obj id wrap = (.ok v, tr)) :
    v = wrap (fetchReply o obj id).elems ∨ v = wrap [] := by
  unfold twoPhaseResult at h
  split at h
  · simp at h
  · split at h
    · split at h
      · simp at h
      · simp at h
        exact Or.inl h.1.symm
    · simp at h
      exact Or.inr h.1.symm

lemma twoPhase_ok_trace {α : Type} (o : InfoOracle) (obj id : Nat)
    (wrap : List Nat → α) (v : α) (tr : List InfoCall)
    (h : twoPhaseResult o obj id wrap = (.ok v, tr)) :
    ((sizeReply o obj id).size_ret = 0 → tr = [sizeCall obj id]) ∧
    ((sizeReply o obj id).size_ret ≠ 0 →
      tr = [sizeCall obj id,
        fetchCall obj id (sizeReply o obj id).size_ret]) := by
  unfold twoPhaseResult at h
  split at h
  · simp at h
  · split at h
    · rename_i hs
      split at h
      · simp at h
      · simp at h
        constructor
        · intro hz
          omega
        · intro _
          exact h.2.symm
    · rename_i hs
      simp at h
      constructor
      · intro _
        exact h.2.symm
      · intro hz
        omega

lemma twoPhase_err_first {α : Type} (o : InfoOracle) (obj id : Nat)
    (wrap : List Nat → α) (h : (sizeReply o obj id).status ≠ CL_SUCCESS) :
    twoPhaseResult o obj id wrap =
      (.error (sizeReply o obj id).status, [sizeCall obj id]) := by
  unfold twoPhaseResult
  rw [if_pos (fun hc => h hc.symm)]

lemma twoPhase_zero_ok {α : Type} (o : InfoOracle) (obj id : Nat)
    (wrap : List Nat → α) (h0 : (sizeReply o obj id).status = CL_SUCCESS)
    (hz : (sizeReply o obj id).size_ret = 0) :
    twoPhaseResult o obj id wrap = (.ok (wrap []), [sizeCall obj id]) := by
  unfold twoPhaseResult
  rw [if_neg (not_not_intro h0.symm), if_neg (by omega)]

lemma twoPhase_error_mem {α : Type} (o : InfoOracle) (obj id : Nat)
    (wrap : List Nat → α) (e : cl_int) (tr : List InfoCall)
    (h : twoPhaseResult o obj id wrap = (.error e, tr)) :
    e ∈ statusesOf o 0 tr := by
  unfold twoPhaseResult at h
  split at h
  · simp at h
    rw [h.2.symm]
    simp only [statusesOf, List.mem_singleton]
    exact h.1.symm
  · split at h
    · split at h
      · simp at h
        rw [h.2.symm]
        simp only [statusesOf, List.mem_cons, List.mem_singleton,
          List.not_mem_nil, or_false]
        right
        exact h.1.symm
      · simp at h
    · simp at h

lemma twoPhase_total {α : Type} (o : InfoOracle) (obj id : Nat)
    (wrap : List Nat → α) :
    (∃ v tr, twoPhaseResult o obj id wrap = (.ok v, tr)) ∨
    (∃ e tr, twoPhaseResult o obj id wrap = (.error e, tr) ∧
      e ≠ CL_SUCCESS) := by
  unfold twoPhaseResult
  split
  · rename_i hst
    exact Or.inr ⟨_, _, rfl, fun hc => hst hc.symm⟩
  · split
    · split
      · rename_i hst
        exact Or.inr ⟨_, _, rfl, fun hc => hst hc.symm⟩
      · exact Or.inl ⟨_, _, rfl⟩
    · exact Or.inl ⟨_, _, rfl⟩

lemma onePhase_total {α : Type} (o : InfoOracle) (obj id w : Nat)
    (wrap : Nat → α) :
    (∃ v tr, onePhaseResult o obj id w wrap = (.ok v, tr)) ∨
    (∃ e tr, onePhaseResult o obj id w wrap = (.error e, tr) ∧
      e ≠ CL_SUCCESS) := by
  unfold onePhaseResult
  split
  · rename_i hst
    exact Or.inr ⟨_, _, rfl, fun hc => hst hc.symm⟩
  · exact Or.inl ⟨_, _, rfl⟩

lemma onePhase_error_mem {α : Type} (o : InfoOracle) (obj id w : Nat)
    (wrap : Nat → α) (e : cl_int) (tr : List InfoCall)
    (h : onePhaseResult o obj id w wrap = (.error e, tr)) :
    e ∈ statusesOf o 0 tr := by
  obtain ⟨he, _, ht⟩ := onePhase_error o obj id w wrap e tr h
  rw [ht, he]
  simp [statusesOf, valueReply]

/-- Oracle whose every reply succeeds with a reported size of zero. -/
def zeroSizeOracle : InfoOracle := ⟨fun _ _ => ⟨0, 0, 0, []⟩⟩

/-- Oracle whose every reply succeeds, reporting size 3, scalar value 5 and
elements 1, 2, 3. -/
def okInfoOracle : InfoOracle := ⟨fun _ _ => ⟨0, 3, 5, [1, 2, 3]⟩⟩

/-- Oracle whose every reply fails with status -7. -/
def failInfoOracle : InfoOracle := ⟨fun _ _ => ⟨-7, 0, 0, []⟩⟩

/-- Counterexample to claim C2 as stated: on an oracle whose size-discovery
reply succeeds with size zero, get_platform_info on the variable-length key
CL_PLATFORM_PROFILE succeeds yet issues exactly one native call, not two. -/
theorem c2_two_native_calls_counterexample :
    (get_platform_info zeroSizeOracle 0 .CL_PLATFORM_PROFILE).1 =
      .ok (InfoType.Str []) ∧
    ((get_platform_info zeroSizeOracle 0 .CL_PLATFORM_PROFILE).2).length = 1 ∧
    ¬((get_platform_info zeroSizeOracle 0 .CL_PLATFORM_PROFILE).2).length = 2 :=
  ⟨rfl, rfl, by decide⟩

/-- Claim C2 as amended: a successful query on a variable-length key issues
the size-discovery call and then one value-fetch call at the discovered size
when that size is nonzero, and only the size-discovery call when the size is
zero; a query on a fixed-size scalar key always issues exactly one native
call, with no size query. -/
theorem c2_call_counts_amended :
    (∀ o p (k : PlatformInfo), k.is_variable = false →
      (get_platform_info o p k).2 = [valueCall p k.id (platform_width k)]) ∧
    (∀ o p (k : PlatformInfo) v tr, k.is_variable = true →
      get_platform_info o p k = (.ok v, tr) →
      ((sizeReply o p k.id).size_ret = 0 → tr = [sizeCall p k.id]) ∧
      ((sizeReply o p k.id).size_ret ≠ 0 →
        tr = [sizeCall p k.id,
          fetchCall p k.id (sizeReply o p k.id).size_ret])) ∧
    (∀ o q (k : CommandQueueInfo), k.is_variable = false →
      (get_command_queue_info o q k).2 = [valueCall q k.id (queue_width k)]) ∧
    (∀ o q (k : CommandQueueInfo) v tr, k.is_variable = true →
      get_command_queue_info o q k = (.ok v, tr) →
      ((sizeReply o q k.id).size_ret = 0 → tr = [sizeCall q k.id]) ∧
      ((sizeReply o q k.id).size_ret ≠ 0 →
        tr = [sizeCall q k.id,
          fetchCall q k.id (sizeReply o q k.id).size_ret])) := by
  refine ⟨?_, ?_, ?_, ?_⟩
  · intro o p k hk
    rw [get_platform_info_scalar o p k hk]
    exact onePhase_trace o p k.id (platform_width k) (platform_scalar_wrap k)
  · intro o p k v tr hk h
    rw [get_platform_info_variable o p k hk] at h
    exact twoPhase_ok_trace o p k.id (platform_wrap k) v tr h
  · intro o q k hk
    rw [get_command_queue_info_scalar o q k hk]
    exact onePhase_trace o q k.id (queue_width k) (queue_scalar_wrap k)
  · intro o q k v tr hk h
    rw [get_command_queue_info_variable o q k hk] at h
    exact twoPhase_ok_trace o q k.id InfoType.VecUlong v tr h

/-- Witness for the amended C2 at concrete inputs: a scalar platform key
issues one native call, and a string platform key whose discovered size is 3
issues the size call then the fetch call at size 3. -/
theorem c2_call_counts_amended_witness :
    (get_platform_info okInfoOracle 0 .CL_PLATFORM_NUMERIC_VERSION).2 =
      [valueCall 0 0x0906 4] ∧
    (get_platform_info okInfoOracle 0 .CL_PLATFORM_PROFILE).2 =
      [sizeCall 0 0x0900, fetchCall 0 0x0900 3] :=
  ⟨c2_call_counts_amended.1 okInfoOracle 0 .CL_PLATFORM_NUMERIC_VERSION rfl,
   (c2_call_counts_amended.2.1 okInfoOracle 0 .CL_PLATFORM_PROFILE
      (InfoType.Str [1, 2, 3]) [sizeCall 0 0x0900, fetchCall 0 0x0900 3]
      rfl rfl).2 (by decide)⟩

/-- Claim C3: the result shape of a successful query is fixed statically by
the key: the constructor of the InfoType value that get_platform_info and
get_command_queue_info return for each key equals the shape the
specification assigns to that key. -/
theorem c3_static_shapes :
    (∀ o p (k : PlatformInfo) v tr, get_platform_info o p k = (.ok v, tr) →
      v.shape = spec_platform_shape k) ∧
    (∀ o q (k : CommandQueueInfo) v tr,
      get_command_queue_info o q k = (.ok v, tr) →
      v.shape = spec_queue_shape k) := by
  constructor
  · intro o p k v tr h
    by_cases hk : k.is_variable = true
    · rw [get_platform_info_variable o p k hk] at h
      rcases twoPhase_ok o p k.id (platform_wrap k) v tr h with h1 | h1 <;>
        subst h1 <;> cases k <;>
          first
            | rfl
            | exact absurd hk (by simp [PlatformInfo.is_variable])
    · have hk2 : k.is_variable = false := by
        revert hk
        cases hv : k.is_variable <;> simp
      rw [get_platform_info_scalar o p k hk2] at h
      have h1 := (onePhase_ok o p k.id (platform_width k)
        (platform_scalar_wrap k) v tr h).1
      subst h1
      cases k <;>
        first
          | rfl
          | exact absurd hk2 (by simp [PlatformInfo.is_variable])
  · intro o q k v tr h
    by_cases hk : k.is_variable = true
    · rw [get_command_queue_info_variable o q k hk] at h
      rcases twoPhase_ok o q k.id InfoType.VecUlong v tr h with h1 | h1 <;>
        subst h1 <;> cases k <;>
          first
            | rfl
            | exact absurd hk (by simp [CommandQueueInfo.is_variable])
    · have hk2 : k.is_variable = false := by
        revert hk
        cases hv : k.is_variable <;> simp
      rw [get_command_queue_info_scalar o q k hk2] at h
      have h1 := (onePhase_ok o q k.id (queue_width k)
        (queue_scalar_wrap k) v tr h).1
      subst h1
      cases k <;>
        first
          | rfl
          | exact absurd hk2 (by simp [CommandQueueInfo.is_variable])

/-- Witness for C3 at concrete inputs: querying CL_QUEUE_REFERENCE_COUNT on a
succeeding oracle yields an InfoType value of the unsigned 32-bit shape. -/
theorem c3_static_shapes_witness :
    (InfoType.Uint 5).shape =
      spec_queue_shape CommandQueueInfo.CL_QUEUE_REFERENCE_COUNT :=
  c3_static_shapes.2 okInfoOracle 0 .CL_QUEUE_REFERENCE_COUNT
    (InfoType.Uint 5) [valueCall 0 0x1092 4] rfl

/-- Claim C4: in every two-phase query, a non-success status from the
first-phase size query is returned as the error-result immediately, and the
trace of issued native calls is exactly the single size-discovery call, so
the second-phase value fetch is never issued. -/
theorem c4_first_phase_failure :
    (∀ o p (k : PlatformInfo), k.is_variable = true →
      (sizeReply o p k.id).status ≠ CL_SUCCESS →
      get_platform_info o p k =
        (.error (sizeReply o p k.id).status, [sizeCall p k.id])) ∧
    (∀ o q,
      (sizeReply o q CommandQueueInfo.CL_QUEUE_PROPERTIES_ARRAY.id).status ≠
        CL_SUCCESS →
      get_command_queue_info o q .CL_QUEUE_PROPERTIES_ARRAY =
        (.error
          (sizeReply o q CommandQueueInfo.CL_QUEUE_PROPERTIES_ARRAY.id).status,
         [sizeCall q CommandQueueInfo.CL_QUEUE_PROPERTIES_ARRAY.id])) ∧
    (∀ o q n, (sizeReply o q n).status ≠ CL_SUCCESS →
      get_command_queue_data o q n =
        (.error (sizeReply o q n).status, [sizeCall q n])) := by
  refine ⟨?_, ?_, ?_⟩
  · intro o p k hk h
    rw [get_platform_info_variable o p k hk]
    exact twoPhase_err_first o p k.id (platform_wrap k) h
  · intro o q h
    rw [get_command_queue_info_variable o q .CL_QUEUE_PROPERTIES_ARRAY rfl]
    exact twoPhase_err_first o q _ InfoType.VecUlong h
  · intro o q n h
    rw [get_command_queue_data_eq o q n]
    exact twoPhase_err_first o q n (fun xs => xs) h

/-- Witness for C4 at concrete inputs: on an oracle failing with -7, the
variable-length platform query and get_command_queue_data return the failing
status with a one-call trace. -/
theorem c4_first_phase_failure_witness :
    get_platform_info failInfoOracle 0 .CL_PLATFORM_EXTENSIONS =
      (.error (-7), [sizeCall 0 0x0904]) ∧
    get_command_queue_data failInfoOracle 1 0x1098 =
      (.error (-7), [sizeCall 1 0x1098]) :=
  ⟨c4_first_phase_failure.1 failInfoOracle 0 .CL_PLATFORM_EXTENSIONS rfl
     (by decide),
   c4_first_phase_failure.2.2 failInfoOracle 1 0x1098 (by decide)⟩

/-- Claim C5: a zero-length response from the size discovery is not an error:
when the first native call succeeds reporting zero, get_platform_ids returns
the empty vector and get_command_queue_data returns the empty byte list,
each without a second native call. -/
theorem c5_zero_size_ok :
    (∀ o : PlatformIDsOracle, (reply0 o).status = CL_SUCCESS →
      (reply0 o).count = 0 → get_platform_ids o = .ok []) ∧
    (∀ o q n, (sizeReply o q n).status = CL_SUCCESS →
      (sizeReply o q n).size_ret = 0 →
      get_command_queue_data o q n = (.ok [], [sizeCall q n])) := by
  constructor
  · intro o h0 hc
    unfold get_platform_ids
    dsimp only
    rw [if_neg (not_not_intro h0.symm), if_neg (by omega)]
  · intro o q n h0 hz
    rw [get_command_queue_data_eq o q n]
    exact twoPhase_zero_ok o q n (fun xs => xs) h0 hz

/-- Witness for C5 at concrete inputs: an oracle succeeding with count and
size zero yields ok-empty results from both cited functions. -/
theorem c5_zero_size_ok_witness :
    get_platform_ids ⟨fun _ _ => ⟨0, 0, []⟩⟩ = .ok [] ∧
    get_command_queue_data zeroSizeOracle 1 0x1098 =
      (.ok [], [sizeCall 1 0x1098]) :=
  ⟨c5_zero_size_ok.1 ⟨fun _ _ => ⟨0, 0, []⟩⟩ rfl rfl,
   c5_zero_size_ok.2 zeroSizeOracle 1 0x1098 rfl rfl⟩

/-- Claim C6: the wrapper never fabricates a status code: every status
carried inside an error-result was produced by the native layer, either
written through the status out-pointer (create_command_queue,
enqueue_map_buffer) or returned by one of the issued native calls
(get_platform_info, get_platform_ids). -/
theorem c6_no_fabricated_status :
    (∀ g c d p e, create_command_queue g c d p = .error e → e = (g c d p).2) ∧
    (∀ nf cq b bm mf off sz bp n wl e r,
      enqueue_map_buffer nf cq b bm mf off sz bp n wl = (.error e, r) →
      e = (nf cq b bm mf off sz n wl).status) ∧
    (∀ o p (k : PlatformInfo) e tr, get_platform_info o p k = (.error e, tr) →
      e ∈ statusesOf o 0 tr) ∧
    (∀ o e, get_platform_ids o = .error e →
      e = (reply0 o).status ∨ e = (reply1 o).status) := by
  refine ⟨?_, ?_, ?_, ?_⟩
  · intro g c d p e h
    unfold create_command_queue at h
    dsimp only at h
    split at h
    · cases h
      rfl
    · cases h
  · intro nf cq b bm mf off sz bp n wl e r h
    unfold enqueue_map_buffer at h
    dsimp only at h
    rw [Prod.mk.injEq] at h
    obtain ⟨h1, _⟩ := h
    split at h1
    · cases h1
      rfl
    · cases h1
  · intro o p k e tr h
    by_cases hk : k.is_variable = true
    · rw [get_platform_info_variable o p k hk] at h
      exact twoPhase_error_mem o p k.id (platform_wrap k) e tr h
    · have hk2 : k.is_variable = false := by
        revert hk
        cases hv : k.is_variable <;> simp
      rw [get_platform_info_scalar o p k hk2] at h
      exact onePhase_error_mem o p k.id (platform_width k)
        (platform_scalar_wrap k) e tr h
  · intro o e h
    unfold get_platform_ids at h
    dsimp only at h
    split at h
    · cases h
      exact Or.inl rfl
    · split at h
      · split at h
        · cases h
          exact Or.inr rfl
        · cases h
      · cases h

/-- Witness for C6 at concrete inputs: a failing create_command_queue and a
failing variable-length platform query carry only natively produced status
codes. -/
theorem c6_no_fabricated_status_witness :
    ((-9 : cl_int) = ((fun _ _ _ => ((42 : Nat), (-9 : cl_int))) 1 2 3).2) ∧
    (-7 : cl_int) ∈ statusesOf failInfoOracle 0
      (get_platform_info failInfoOracle 0 .CL_PLATFORM_NAME).2 :=
  ⟨c6_no_fabricated_status.1 (fun _ _ _ => (42, -9)) 1 2 3 (-9) rfl,
   c6_no_fabricated_status.2.2.1 failInfoOracle 0 .CL_PLATFORM_NAME (-7)
     [sizeCall 0 0x0902] rfl⟩

/-- Claim C8: a non-success native status never causes a panic inside the
wrapper layer: create_command_queue returns the failing status as an
error-result, and get_platform_info always terminates with a value that is
either an ok-result or an error-result carrying a non-success code. -/
theorem c8_no_panic :
    (∀ g c d p, (g c d p).2 ≠ CL_SUCCESS →
      create_command_queue g c d p = .error (g c d p).2) ∧
    (∀ o p (k : PlatformInfo),
      (∃ v tr, get_platform_info o p k = (.ok v, tr)) ∨
      (∃ e tr, get_platform_info o p k = (.error e, tr) ∧
        e ≠ CL_SUCCESS)) := by
  constructor
  · intro g c d p h
    simp [create_command_queue, (Ne.symm h)]
  · intro o p k
    by_cases hk : k.is_variable = true
    · rw [get_platform_info_variable o p k hk]
      exact twoPhase_total o p k.id (platform_wrap k)
    · have hk2 : k.is_variable = false := by
        revert hk
        cases hv : k.is_variable <;> simp
      rw [get_platform_info_scalar o p k hk2]
      exact onePhase_total o p k.id (platform_width k) (platform_scalar_wrap k)

/-- Witness for C8 at a concrete input: a native creation call failing with
-34 makes create_command_queue return that code as an error-result, and a
platform query on an all-failing oracle is covered by the totality part. -/
theorem c8_no_panic_witness :
    create_command_queue (fun _ _ _ => (0, -34)) 1 2 3 = .error (-34) ∧
    ((∃ v tr, get_platform_info failInfoOracle 0 .CL_PLATFORM_VERSION =
        (.ok v, tr)) ∨
     (∃ e tr, get_platform_info failInfoOracle 0 .CL_PLATFORM_VERSION =
        (.error e, tr) ∧ e ≠ CL_SUCCESS)) :=
  ⟨c8_no_panic.1 (fun _ _ _ => (0, -34)) 1 2 3 (by decide),
   c8_no_panic.2 failInfoOracle 0 .CL_PLATFORM_VERSION⟩

/-- Claim C9: enqueue_map_buffer and enqueue_map_image write the pointer the
native call returned through their mutable out-reference unconditionally, so
the final value of the out-reference equals the native pointer whatever the
status and whatever the initial value of the reference; when an error-result
is returned the out-reference has still been overwritten, and on success the
returned value is the event, not the mapped pointer. -/
theorem c9_map_out_reference :
    (∀ nf cq b bm mf off sz bp n wl,
      (enqueue_map_buffer nf cq b bm mf off sz bp n wl).2 =
        (nf cq b bm mf off sz n wl).ptr ∧
      ((nf cq b bm mf off sz n wl).status = CL_SUCCESS →
        (enqueue_map_buffer nf cq b bm mf off sz bp n wl).1 =
          .ok (nf cq b bm mf off sz n wl).event) ∧
      ((nf cq b bm mf off sz n wl).status ≠ CL_SUCCESS →
        (enqueue_map_buffer nf cq b bm mf off sz bp n wl).1 =
          .error (nf cq b bm mf off sz n wl).status)) ∧
    (∀ nf cq im bm mf og rg rp sp ip n wl,
      (enqueue_map_image nf cq im bm mf og rg rp sp ip n wl).2 =
        (nf cq im bm mf og rg rp sp n wl).ptr ∧
      ((nf cq im bm mf og rg rp sp n wl).status = CL_SUCCESS →
        (enqueue_map_image nf cq im bm mf og rg rp sp ip n wl).1 =
          .ok (nf cq im bm mf og rg rp sp n wl).event) ∧
      ((nf cq im bm mf og rg rp sp n wl).status ≠ CL_SUCCESS →
        (enqueue_map_image nf cq im bm mf og rg rp sp ip n wl).1 =
          .error (nf cq im bm mf og rg rp sp n wl).status)) := by
  constructor
  · intro nf cq b bm mf off sz bp n wl
    refine ⟨rfl, ?_, ?_⟩
    · intro h
      simp [enqueue_map_buffer, h]
    · intro h
      simp [enqueue_map_buffer, (Ne.symm h)]
  · intro nf cq im bm mf og rg rp sp ip n wl
    refine ⟨rfl, ?_, ?_⟩
    · intro h
      simp [enqueue_map_image, h]
    · intro h
      simp [enqueue_map_image, (Ne.symm h)]

/-- Witness for C9 at concrete inputs: a failing native map call with
pointer 100, event 200 and status -5 overwrites the out-reference, whose
initial value 77 is lost, while the wrapper returns the error code; and a
succeeding native map call makes the wrapper return the event. -/
theorem c9_map_out_reference_witness :
    (enqueue_map_buffer (fun _ _ _ _ _ _ _ _ => ⟨100, 200, -5⟩)
      1 2 3 4 5 6 77 0 []).2 = 100 ∧
    (enqueue_map_buffer (fun _ _ _ _ _ _ _ _ => ⟨100, 200, -5⟩)
      1 2 3 4 5 6 77 0 []).1 = .error (-5) ∧
    (enqueue_map_image (fun _ _ _ _ _ _ _ _ _ _ => ⟨100, 200, 0⟩)
      1 2 3 4 5 6 7 8 77 0 []).1 = .ok 200 :=
  ⟨(c9_map_out_reference.1 (fun _ _ _ _ _ _ _ _ => ⟨100, 200, -5⟩)
      1 2 3 4 5 6 77 0 []).1,
   (c9_map_out_reference.1 (fun _ _ _ _ _ _ _ _ => ⟨100, 200, -5⟩)
      1 2 3 4 5 6 77 0 []).2.2 (by decide),
   (c9_map_out_reference.2 (fun _ _ _ _ _ _ _ _ _ _ => ⟨100, 200, 0⟩)
      1 2 3 4 5 6 7 8 77 0 []).2.1 (by decide)⟩
